import Mathlib

/-!
Verification of the Raspberry Pi peripheral-control scripts of
`plankton_gate_app_linux_app` (printer_script.py, button_script.py,
relay_script.py, stats_script.py), shallowly embedded in Lean.

Byte strings are modelled as `List Nat` (each entry a byte value), images as
pixel functions `Nat → Nat → Nat` together with a width and a height, and the
fallible byte constructor `bytes([v])` as an `Option` that is `none` exactly
when Python would raise `ValueError` (value outside `range(0, 256)`).
-/

set_option autoImplicit false

namespace PlanktonGate

/-! ### `HSK33Printer._send` — bulk-transfer chunking (printer_script.py)

```python
if len(cmd) > 1024:
    for i in range(0, len(cmd), 1024):
        chunk = cmd[i:i + 1024]
        self.ep_out.write(chunk)
else:
    self.ep_out.write(cmd)
```
-/

/-- The sequence of byte strings written to the OUT endpoint for one command
`cmd` by `HSK33Printer._send`: a command longer than 1024 bytes is written as
the slices `cmd[i:i+1024]` for `i = 0, 1024, 2048, ...` (the Python loop
`for i in range(0, len(cmd), 1024)` runs `⌈len(cmd)/1024⌉ = (len(cmd)+1023)/1024`
times); a shorter command is written in a single transfer. -/
def sendWrites (cmd : List Nat) : List (List Nat) :=
  if cmd.length > 1024 then
    (List.range ((cmd.length + 1023) / 1024)).map fun i => (cmd.drop (1024 * i)).take 1024
  else
    [cmd]

/-- Concatenating consecutive `n`-slices of a list recovers the list, as soon as
the slice count `k` covers its length. -/
theorem join_slices (n : Nat) :
    ∀ (k : Nat) (L : List Nat), L.length ≤ k * n →
      ((List.range k).map fun i => (L.drop (n * i)).take n).flatten = L := by
  intro k
  induction k with
  | zero =>
      intro L hL
      simp only [Nat.zero_mul, Nat.le_zero, List.length_eq_zero] at hL
      simp [hL]
  | succ k ih =>
      intro L hL
      rw [List.range_succ_eq_map, List.map_cons, List.map_map, List.flatten_cons]
      have hcomp : ((fun i => (L.drop (n * i)).take n) ∘ Nat.succ)
          = fun i => ((L.drop n).drop (n * i)).take n := by
        funext i
        simp [Function.comp, List.drop_drop, Nat.mul_succ, Nat.add_comm]
      rw [hcomp, Nat.mul_zero, List.drop_zero,
        ih (L.drop n) (by simp only [List.length_drop]; rw [Nat.succ_mul] at hL; omega)]
      exact List.take_append_drop n L

/-- Claim C1: each command longer than 1024 bytes is written to the OUT endpoint as
the consecutive slices `cmd[i:i+1024]` in order, whose concatenation is exactly
the original command; each chunk is at most 1024 bytes; a command of at most
1024 bytes is written in a single transfer. -/
theorem send_chunking_correct (cmd : List Nat) :
    (sendWrites cmd).flatten = cmd
    ∧ (∀ c ∈ sendWrites cmd, c.length ≤ 1024)
    ∧ (cmd.length ≤ 1024 → sendWrites cmd = [cmd])
    ∧ (cmd.length > 1024 →
        sendWrites cmd = (List.range ((cmd.length + 1023) / 1024)).map
          fun i => (cmd.drop (1024 * i)).take 1024) := by
  refine ⟨?_, ?_, ?_, ?_⟩
  · unfold sendWrites
    split
    · exact join_slices 1024 _ cmd (by omega)
    · simp
  · intro c hc
    unfold sendWrites at hc
    split at hc
    · rcases List.mem_map.mp hc with ⟨i, _, rfl⟩
      simp [List.length_take]
    · rcases List.mem_singleton.mp hc with rfl
      omega
  · intro h
    unfold sendWrites
    simp [Nat.not_lt.mpr h]
  · intro h
    unfold sendWrites
    simp [h]

/-- Witness for `send_chunking_correct` at concrete inputs: a 2500-byte command
is chunked losslessly, and a 7-byte command is written in one transfer. -/
theorem send_chunking_correct_witness :
    (sendWrites (List.range 2500)).flatten = List.range 2500
    ∧ sendWrites (List.range 7) = [List.range 7] :=
  ⟨(send_chunking_correct (List.range 2500)).1,
   (send_chunking_correct (List.range 7)).2.2.1 (by simp)⟩

/-! ### `HSK33Printer._initialize` — bounded retry loop (printer_script.py)

```python
while attempts < max_attempts:          # max_attempts = 3
    try:
        self.device = usb.core.find(...)
        if self.device is None:
            raise ValueError("Printer not found - check USB connection")
        ...  # reset, detach kernel driver, set configuration, find endpoint,
        ...  # send init commands
        return
    except usb.core.USBError as e:
        ... ; attempts += 1 ; time.sleep(0.2)
raise RuntimeError("Failed to initialize printer after 3 attempts")
```

Note that the `except` clause catches only `usb.core.USBError`; the
`ValueError` raised when `usb.core.find` returns `None` propagates out of the
loop at once. -/

/-- Outcome of one run of the try-block body: it returns, raises
`usb.core.USBError`, or raises `ValueError` because the printer device was
absent (`usb.core.find` returned `None`). -/
inductive AttemptOutcome
  | success
  | usbError
  | printerNotFound
deriving DecidableEq

/-- How `_initialize` terminates. -/
inductive InitResult
  | ok
  | runtimeError
  | uncaughtValueError
deriving DecidableEq

/-- The `while attempts < max_attempts` loop of `HSK33Printer._initialize`
(`max_attempts = 3`); `o k` is the outcome of the try-block body on the
iteration entered with `attempts = k`.  Only `usb.core.USBError` is caught;
`printerNotFound` (a `ValueError`) escapes the loop immediately. -/
def initLoop (o : Nat → AttemptOutcome) (attempts : Nat) : InitResult :=
  if _h : attempts < 3 then
    match o attempts with
    | .success => .ok
    | .printerNotFound => .uncaughtValueError
    | .usbError => initLoop o (attempts + 1)
  else
    .runtimeError
termination_by 3 - attempts

/-- `HSK33Printer._initialize`, entered with `attempts = 0`. -/
def initPrinter (o : Nat → AttemptOutcome) : InitResult := initLoop o 0

/-- `initPrinter` as an explicit decision tree over the first three attempt
outcomes. -/
theorem initPrinter_eq_match (o : Nat → AttemptOutcome) :
    initPrinter o =
      (match o 0 with
       | .success => .ok
       | .printerNotFound => .uncaughtValueError
       | .usbError =>
         match o 1 with
         | .success => .ok
         | .printerNotFound => .uncaughtValueError
         | .usbError =>
           match o 2 with
           | .success => .ok
           | .printerNotFound => .uncaughtValueError
           | .usbError => .runtimeError) := by
  rw [initPrinter, initLoop, initLoop, initLoop, initLoop]
  norm_num

/-- Counterexample to claim C3: when the printer device is absent on the first
attempt, `_initialize` does not catch and retry — the `ValueError` escapes the
loop immediately, and the `RuntimeError` after three attempts that the claim
promises is never reached. -/
theorem init_absent_device_not_retried :
    initPrinter (fun _ => .printerNotFound) = .uncaughtValueError
    ∧ initPrinter (fun _ => .printerNotFound) ≠ .runtimeError := by
  simp [initPrinter_eq_match]

/-- Claim C3 (amended): `_initialize` makes at most 3 attempts and its result
depends only on the first three attempt outcomes; a `usb.core.USBError`
failure is caught and retried, and only after 3 such failures does it raise
`RuntimeError("Failed to initialize printer after 3 attempts")`; but an absent
printer device raises a `ValueError` that escapes the loop immediately instead
of being retried. -/
theorem init_retry_spec (o : Nat → AttemptOutcome) :
    (initPrinter o = .runtimeError ↔ ∀ k, k < 3 → o k = .usbError)
    ∧ (initPrinter o = .uncaughtValueError ↔
        ∃ k, k < 3 ∧ o k = .printerNotFound ∧ ∀ j, j < k → o j = .usbError)
    ∧ (initPrinter o = .ok ↔
        ∃ k, k < 3 ∧ o k = .success ∧ ∀ j, j < k → o j = .usbError)
    ∧ ∀ o' : Nat → AttemptOutcome, (∀ i, i < 3 → o i = o' i) →
        initPrinter o = initPrinter o' := by
  have hforall : (∀ k, k < 3 → o k = .usbError) ↔
      (o 0 = .usbError ∧ o 1 = .usbError ∧ o 2 = .usbError) := by
    constructor
    · intro h; exact ⟨h 0 (by omega), h 1 (by omega), h 2 (by omega)⟩
    · rintro ⟨a, b, c⟩ k hk
      interval_cases k <;> assumption
  have hexP : (∃ k, k < 3 ∧ o k = .printerNotFound ∧ ∀ j, j < k → o j = .usbError) ↔
      (o 0 = .printerNotFound ∨ (o 0 = .usbError ∧ o 1 = .printerNotFound)
        ∨ (o 0 = .usbError ∧ o 1 = .usbError ∧ o 2 = .printerNotFound)) := by
    constructor
    · rintro ⟨k, hk, hp, hj⟩
      interval_cases k
      · exact Or.inl hp
      · exact Or.inr (Or.inl ⟨hj 0 (by omega), hp⟩)
      · exact Or.inr (Or.inr ⟨hj 0 (by omega), hj 1 (by omega), hp⟩)
    · rintro (h | ⟨ha, hb⟩ | ⟨ha, hb, hc⟩)
      · exact ⟨0, by omega, h, fun j hj => absurd hj (by omega)⟩
      · exact ⟨1, by omega, hb, fun j hj => by interval_cases j; exact ha⟩
      · exact ⟨2, by omega, hc, fun j hj => by interval_cases j <;> assumption⟩
  have hexS : (∃ k, k < 3 ∧ o k = .success ∧ ∀ j, j < k → o j = .usbError) ↔
      (o 0 = .success ∨ (o 0 = .usbError ∧ o 1 = .success)
        ∨ (o 0 = .usbError ∧ o 1 = .usbError ∧ o 2 = .success)) := by
    constructor
    · rintro ⟨k, hk, hp, hj⟩
      interval_cases k
      · exact Or.inl hp
      · exact Or.inr (Or.inl ⟨hj 0 (by omega), hp⟩)
      · exact Or.inr (Or.inr ⟨hj 0 (by omega), hj 1 (by omega), hp⟩)
    · rintro (h | ⟨ha, hb⟩ | ⟨ha, hb, hc⟩)
      · exact ⟨0, by omega, h, fun j hj => absurd hj (by omega)⟩
      · exact ⟨1, by omega, hb, fun j hj => by interval_cases j; exact ha⟩
      · exact ⟨2, by omega, hc, fun j hj => by interval_cases j <;> assumption⟩
  refine ⟨?_, ?_, ?_, ?_⟩
  · rw [hforall, initPrinter_eq_match]
    rcases h0 : o 0 <;> rcases h1 : o 1 <;> rcases h2 : o 2 <;> simp [h0, h1, h2]
  · rw [hexP, initPrinter_eq_match]
    rcases h0 : o 0 <;> rcases h1 : o 1 <;> rcases h2 : o 2 <;> simp [h0, h1, h2]
  · rw [hexS, initPrinter_eq_match]
    rcases h0 : o 0 <;> rcases h1 : o 1 <;> rcases h2 : o 2 <;> simp [h0, h1, h2]
  · intro o' h
    rw [initPrinter_eq_match, initPrinter_eq_match,
      h 0 (by omega), h 1 (by omega), h 2 (by omega)]

/-- Witness for `init_retry_spec`: three consecutive USB errors yield the
`RuntimeError`. -/
theorem init_retry_spec_witness :
    initPrinter (fun _ => .usbError) = .runtimeError :=
  (init_retry_spec (fun _ => .usbError)).1.mpr (fun _ _ => rfl)

/-! ### `acquire_lock` / `release_lock` — PID-file lock (printer_script.py) -/

/-- Content of the lock file `/tmp/printer.lock` as `acquire_lock` parses it:
`invalid` when `int(f.read().strip())` raises (unreadable or non-integer
contents), else the recorded PID. -/
inductive LockContent
  | invalid
  | pid (p : Nat)
deriving DecidableEq

/-- The filesystem state the lock functions touch: `none` when the lock file
does not exist. -/
structure LockState where
  lockFile : Option LockContent
deriving DecidableEq

/-- `acquire_lock()`: `myPid` is `os.getpid()` and `alive p` tells whether
`os.kill(p, 0)` succeeds (the process `p` is running).  Returns the boolean
result together with the updated filesystem state.  An unparsable lock file
makes `int(...)` raise; the surrounding `except` returns `False`. -/
def acquire_lock (myPid : Nat) (alive : Nat → Bool) (st : LockState) : Bool × LockState :=
  match st.lockFile with
  | some .invalid => (false, st)
  | some (.pid p) =>
      if alive p then (false, st)
      else (true, ⟨some (.pid myPid)⟩)
  | none => (true, ⟨some (.pid myPid)⟩)

/-- `release_lock()`: removes the lock file only when it exists, parses, and
records the caller's own PID; `int(...)` raising on unparsable contents is
caught and logged. -/
def release_lock (myPid : Nat) (st : LockState) : LockState :=
  match st.lockFile with
  | none => st
  | some .invalid => st
  | some (.pid p) => if p = myPid then ⟨none⟩ else st

/-- Claim C4: `acquire_lock` returns `False` when the lock file records a
running process or is unparsable (leaving the state unchanged), and otherwise
(absent file or dead recorded process) writes the caller's PID and returns
`True`; `release_lock` deletes the lock file exactly when it records the
caller's own PID and never disturbs a lock held by another process. -/
theorem pid_lock_spec (myPid p : Nat) (alive : Nat → Bool) (st : LockState) :
    (st.lockFile = some (.pid p) → alive p = true →
      acquire_lock myPid alive st = (false, st))
    ∧ (st.lockFile = some .invalid → acquire_lock myPid alive st = (false, st))
    ∧ (st.lockFile = none →
      acquire_lock myPid alive st = (true, ⟨some (.pid myPid)⟩))
    ∧ (st.lockFile = some (.pid p) → alive p = false →
      acquire_lock myPid alive st = (true, ⟨some (.pid myPid)⟩))
    ∧ (st.lockFile = some (.pid myPid) → release_lock myPid st = ⟨none⟩)
    ∧ (st.lockFile = some (.pid p) → p ≠ myPid → release_lock myPid st = st)
    ∧ (st.lockFile = some .invalid → release_lock myPid st = st)
    ∧ (st.lockFile = none → release_lock myPid st = st) := by
  obtain ⟨f⟩ := st
  refine ⟨?_, ?_, ?_, ?_, ?_, ?_, ?_, ?_⟩ <;>
    rintro rfl <;> simp_all [acquire_lock, release_lock]

/-- Witness for `pid_lock_spec`: a stale lock file recording dead process 7 is
taken over by process 5, and process 5 then removes its own lock but would not
remove one recording process 7. -/
theorem pid_lock_spec_witness :
    acquire_lock 5 (fun _ => false) ⟨some (.pid 7)⟩ = (true, ⟨some (.pid 5)⟩)
    ∧ release_lock 5 ⟨some (.pid 5)⟩ = ⟨none⟩
    ∧ release_lock 5 ⟨some (.pid 7)⟩ = ⟨some (.pid 7)⟩ :=
  ⟨(pid_lock_spec 5 7 (fun _ => false) ⟨some (.pid 7)⟩).2.2.2.1 rfl rfl,
   (pid_lock_spec 5 7 (fun _ => false) ⟨some (.pid 5)⟩).2.2.2.2.1 rfl,
   (pid_lock_spec 5 7 (fun _ => false) ⟨some (.pid 7)⟩).2.2.2.2.2.1 rfl (by omega)⟩

/-! ### `main` — one JSON response per stdin line (printer_script.py)

```python
try:
    cmd = json.loads(line.strip())
    if 'text' in cmd: printer.print_text(cmd); ...
    elif 'image' in cmd: ...
    elif 'qr' in cmd: ...
    elif 'space' in cmd: ...
    elif 'cut' in cmd: ...
    print(json.dumps({"status": "success"}))
except Exception as e:
    print(json.dumps({"status": "error", "message": str(e)}))
```
-/

/-- A parsed JSON object line as the dispatch chain sees it: which of the five
dispatch keys it contains, and whether the handler the chain selects raises. -/
structure CmdObj where
  hasText : Bool
  hasImage : Bool
  hasQr : Bool
  hasSpace : Bool
  hasCut : Bool
  handlerRaises : Bool
deriving DecidableEq

/-- One line read from stdin: either `json.loads` raises, or it yields an
object. -/
inductive InLine
  | badJson
  | obj (c : CmdObj)
deriving DecidableEq

/-- A line-delimited JSON response on stdout. -/
inductive Response
  | success
  | error
deriving DecidableEq

/-- Whether the `if/elif` chain selects any handler for this object. -/
def dispatchesHandler (c : CmdObj) : Bool :=
  c.hasText || c.hasImage || c.hasQr || c.hasSpace || c.hasCut

/-- Processing of one stdin line by the body of `main`'s `while True` loop:
a parse error or a raising handler is answered with `{"status": "error"}`,
everything else — including an object matching none of the five keys, which
dispatches to no handler — with `{"status": "success"}`. -/
def processLine : InLine → Response
  | .badJson => .error
  | .obj c => if dispatchesHandler c && c.handlerRaises then .error else .success

/-- The whole loop: stdout responses for the list of stdin lines, in order. -/
def mainLoopResponses (ls : List InLine) : List Response :=
  ls.map processLine

/-- Claim C5: every stdin line yields exactly one response (the response list
is index-aligned with the input list); an unparsable line or a raising handler
yields `error`, and everything else — in particular an object with none of the
keys `text`, `image`, `qr`, `space`, `cut` — yields `success`. -/
theorem main_loop_one_response_per_line (ls : List InLine) :
    (mainLoopResponses ls).length = ls.length
    ∧ (∀ i, i < ls.length → (mainLoopResponses ls)[i]? = ls[i]?.map processLine)
    ∧ processLine .badJson = .error
    ∧ (∀ c : CmdObj, dispatchesHandler c = false → processLine (.obj c) = .success)
    ∧ (∀ c : CmdObj, processLine (.obj c) = .error ↔
        dispatchesHandler c = true ∧ c.handlerRaises = true) := by
  refine ⟨by simp [mainLoopResponses], ?_, rfl, ?_, ?_⟩
  · intro i _
    simp [mainLoopResponses, List.getElem?_map]
  · intro c h
    simp [processLine, h]
  · intro c
    constructor
    · intro h
      by_contra hc
      rw [processLine] at h
      rcases Bool.eq_false_or_eq_true (dispatchesHandler c) with hd | hd <;>
        rcases Bool.eq_false_or_eq_true c.handlerRaises with hr | hr <;>
          simp [hd, hr] at h hc ⊢
    · rintro ⟨hd, hr⟩
      simp [processLine, hd, hr]

/-- Witness for `main_loop_one_response_per_line`: a two-line session with one
parse error and one key-less object gives exactly the responses
`[error, success]`. -/
theorem main_loop_one_response_per_line_witness :
    (mainLoopResponses [.badJson, .obj ⟨false, false, false, false, false, false⟩]).length = 2
    ∧ processLine (.obj ⟨false, false, false, false, false, false⟩) = .success :=
  ⟨(main_loop_one_response_per_line [.badJson, .obj ⟨false, false, false, false, false, false⟩]).1,
   (main_loop_one_response_per_line []).2.2.2.1 ⟨false, false, false, false, false, false⟩ rfl⟩

/-! ### `button_callback` — debounce (button_script.py)

```python
last_press_time = 0
debounce_time = 0.3

def button_callback():
    global last_press_time
    current_time = time.time()
    if current_time - last_press_time > debounce_time:
        print_json({"method": "buttonPressed", "timestamp": current_time})
        last_press_time = current_time
```

Timestamps are modelled as rationals; `debounce_time` is `3/10`. -/

/-- The timestamps of the emitted `buttonPressed` messages for a sequence of
press-callback invocations at times `ts`, starting from `last_press_time =
last` (initially `0`): a press is emitted, and `last_press_time` updated,
exactly when more than `3/10` has elapsed since `last_press_time`. -/
def buttonEmits (last : ℚ) : List ℚ → List ℚ
  | [] => []
  | t :: ts => if t - last > 3/10 then t :: buttonEmits t ts else buttonEmits last ts

/-- Every emitted timestamp exceeds the starting `last_press_time` by more
than `3/10`, and consecutive emitted timestamps are more than `3/10` apart. -/
theorem buttonEmits_chain (last : ℚ) (ts : List ℚ) :
    List.Chain (fun a b => b - a > 3/10) last (buttonEmits last ts) := by
  induction ts generalizing last with
  | nil => exact List.Chain.nil
  | cons t rest ih =>
      rw [buttonEmits]
      split
      · exact List.Chain.cons (by assumption) (ih t)
      · exact ih last

/-- Claim C6: `button_callback` emits a `buttonPressed` message exactly when
more than `debounce_time = 0.3` seconds have elapsed since `last_press_time`
(which starts at `0` and is updated only on emission); consequently any two
emitted events — not only consecutive ones — are more than `0.3` seconds
apart. -/
theorem button_debounce_spec (ts : List ℚ) :
    (∀ last t rest, buttonEmits last (t :: rest)
        = if t - last > 3/10 then t :: buttonEmits t rest else buttonEmits last rest)
    ∧ List.Chain' (fun a b => b - a > 3/10) (buttonEmits 0 ts)
    ∧ (buttonEmits 0 ts).Pairwise (fun a b => b - a > 3/10) := by
  have htrans : Transitive (fun a b : ℚ => b - a > 3/10) := by
    intro a b c hab hbc
    simp only [gt_iff_lt] at *
    linarith
  have hchain' : List.Chain' (fun a b : ℚ => b - a > 3/10) (buttonEmits 0 ts) := by
    have h : List.Chain' (fun a b : ℚ => b - a > 3/10) (0 :: buttonEmits 0 ts) :=
      buttonEmits_chain 0 ts
    exact h.tail
  refine ⟨fun last t rest => rfl, hchain', ?_⟩
  haveI : IsTrans ℚ (fun a b : ℚ => b - a > 3/10) := ⟨htrans⟩
  exact List.chain'_iff_pairwise.mp hchain'

/-- Witness for `button_debounce_spec`: presses at `0.2, 0.4, 0.8` emit only
`0.4` and `0.8` (the press at `0.2` is within `0.3` of the initial state), and
those two are more than `0.3` apart. -/
theorem button_debounce_spec_witness :
    (buttonEmits 0 [1/5, 2/5, 4/5]).Pairwise (fun a b => b - a > 3/10)
    ∧ buttonEmits 0 [1/5, 2/5, 4/5] = [2/5, 4/5] :=
  ⟨(button_debounce_spec [1/5, 2/5, 4/5]).2.2, by norm_num [buttonEmits]⟩

/-! ### `RelayController.trigger_relays` — relay pulsing (relay_script.py)

```python
for idx, relay in enumerate(self.relays):
    if idx in channels:
        relay.off()  # Relay is active low; off() activates it
    else:
        relay.on()   # Deactivate other relays
time.sleep(1)
for relay in self.relays:
    relay.on()
print(json.dumps({'status': 'success', 'method': 'triggerComplete'}))
```

A relay state is a `Bool`, `true` when the relay is energized (active-low:
`off()` activates, `on()` deactivates). -/

/-- The first `enumerate` loop: relay `idx` is driven active exactly when
`idx ∈ channels`. -/
def activateForTrigger (relays : List Bool) (channels : List Nat) : List Bool :=
  relays.mapIdx fun idx _ => decide (idx ∈ channels)

/-- The reset loop after the 1-second hold: `relay.on()` for every relay. -/
def resetRelays (relays : List Bool) : List Bool :=
  relays.map fun _ => false

/-- `trigger_relays(channels)`: the state held for 1 second, the state after
the reset loop, and the emitted message. -/
def trigger_relays (relays : List Bool) (channels : List Nat) :
    List Bool × List Bool × String :=
  let held := activateForTrigger relays channels
  (held, resetRelays held, "triggerComplete")

/-- Claim C7: during the 1-second hold exactly the relays whose index is in
`channels` are active and all others inactive; after completion every relay is
inactive regardless of `channels`, and the `triggerComplete` success message
is printed. -/
theorem trigger_relays_spec (relays : List Bool) (channels : List Nat) :
    ((trigger_relays relays channels).1.length = relays.length
      ∧ ∀ i, i < relays.length →
          (trigger_relays relays channels).1[i]? = some (decide (i ∈ channels)))
    ∧ ((trigger_relays relays channels).2.1.length = relays.length
      ∧ ∀ b ∈ (trigger_relays relays channels).2.1, b = false)
    ∧ (trigger_relays relays channels).2.2 = "triggerComplete" := by
  refine ⟨⟨?_, ?_⟩, ⟨?_, ?_⟩, rfl⟩
  · simp [trigger_relays, activateForTrigger]
  · intro i hi
    simp [trigger_relays, activateForTrigger, List.getElem?_mapIdx,
      List.getElem?_eq_getElem hi]
  · simp [trigger_relays, resetRelays, activateForTrigger]
  · intro b hb
    simp [trigger_relays, resetRelays] at hb
    exact hb.2

/-- Witness for `trigger_relays_spec`: with three relays and `channels =
[0, 2]`, relay 1 is held inactive while relays 0 and 2 are held active, and
the final state is all-inactive. -/
theorem trigger_relays_spec_witness :
    (trigger_relays [false, false, false] [0, 2]).1[1]? = some (decide ((1 : Nat) ∈ [0, 2]))
    ∧ (trigger_relays [false, false, false] [0, 2]).1 = [true, false, true]
    ∧ (trigger_relays [false, false, false] [0, 2]).2.1 = [false, false, false] :=
  ⟨(trigger_relays_spec [false, false, false] [0, 2]).1.2 1 (by decide),
   by decide, by decide⟩

/-! ### `update_cache` — system-stats reporter (stats_script.py)

```python
def update_cache():
    cache["cpu_temperature"] = get_cpu_temperature() or cache["cpu_temperature"]
    cache["internet_status"] = check_internet()
    cache["memory_usage"] = get_memory_usage() or cache["memory_usage"]
    cache["cpu_usage"] = get_cpu_usage() or cache["cpu_usage"]
    cache["disk_usage"] = get_disk_usage() or cache["disk_usage"]
    cache["ip_address"] = get_ip_address() or cache["ip_address"]
```

`x or y` keeps the previous cache value `y` whenever the fresh read `x` is
falsy (`None`, `0`, `0.0`, or the empty string).  Numeric readings are
modelled as rationals, the psutil dicts as tuples of rationals. -/

/-- The fresh sensor reads of one cycle.  `get_cpu_temperature` and
`get_ip_address` return `None` on an exception; `get_memory_usage` and
`get_disk_usage` always return a (truthy) non-empty dict; `check_internet`
always returns a `bool`; `get_cpu_usage` always returns a float. -/
structure FreshReads where
  cpu_temperature : Option ℚ
  internet_status : Bool
  memory_usage : ℚ × ℚ × ℚ
  cpu_usage : ℚ
  disk_usage : ℚ × ℚ × ℚ × ℚ
  ip_address : Option String
deriving DecidableEq

/-- The module-level `cache` dict; every entry starts as `None`. -/
structure StatsCache where
  cpu_temperature : Option ℚ
  internet_status : Option Bool
  memory_usage : Option (ℚ × ℚ × ℚ)
  cpu_usage : Option ℚ
  disk_usage : Option (ℚ × ℚ × ℚ × ℚ)
  ip_address : Option String
deriving DecidableEq

/-- Python truthiness of an optional number: `None`, `0` and `0.0` are
falsy. -/
def truthyQ : Option ℚ → Bool
  | none => false
  | some q => decide (q ≠ 0)

/-- Python truthiness of an optional string: `None` and `""` are falsy. -/
def truthyS : Option String → Bool
  | none => false
  | some s => decide (s ≠ "")

/-- `update_cache()`: each `fresh or cache[...]` assignment keeps the old
cache entry when the fresh read is falsy; `internet_status` is assigned
directly, and the two psutil dicts are always truthy. -/
def update_cache (c : StatsCache) (f : FreshReads) : StatsCache :=
  ⟨if truthyQ f.cpu_temperature then f.cpu_temperature else c.cpu_temperature,
   some f.internet_status,
   some f.memory_usage,
   if f.cpu_usage ≠ 0 then some f.cpu_usage else c.cpu_usage,
   some f.disk_usage,
   if truthyS f.ip_address then f.ip_address else c.ip_address⟩

/-- The payload of the `stats` message `main` emits right after
`update_cache()`: exactly the six cache entries. -/
structure StatsMessage where
  connectedToInternet : Option Bool
  temperature : Option ℚ
  memoryUsage : Option (ℚ × ℚ × ℚ)
  cpuUsage : Option ℚ
  diskUsage : Option (ℚ × ℚ × ℚ × ℚ)
  ipAddress : Option String
deriving DecidableEq

/-- The `stats` message as a function of the cache state. -/
def statsMessage (c : StatsCache) : StatsMessage :=
  ⟨c.internet_status, c.cpu_temperature, c.memory_usage, c.cpu_usage,
   c.disk_usage, c.ip_address⟩

/-- Counterexample to claim C8: with identical fresh reads whose temperature
read failed (`None`), two different prior cache states emit different stats
messages — the reporter retains the last cached temperature across
iterations. -/
theorem stats_cache_retention_counterexample :
    statsMessage (update_cache ⟨none, none, none, none, none, none⟩
        ⟨none, true, (1, 1, 1), 1, (1, 1, 1, 1), some "10.0.0.1"⟩)
      ≠ statsMessage (update_cache ⟨some 42, none, none, none, none, none⟩
        ⟨none, true, (1, 1, 1), 1, (1, 1, 1, 1), some "10.0.0.1"⟩) := by
  decide

/-- Claim C8 (amended): a stats message is a function of the cycle's fresh
reads alone only when every fallible read is truthy — the temperature read
non-`None` and nonzero, the CPU-usage read nonzero, and the IP read a
non-empty string; then two runs of `update_cache` from different prior cache
states emit identical messages.  (When a read is falsy the previous cache
value is retained, as the counterexample shows.) -/
theorem stats_fresh_truthy_no_retention (c₁ c₂ : StatsCache) (f : FreshReads)
    (h1 : truthyQ f.cpu_temperature = true)
    (h2 : f.cpu_usage ≠ 0)
    (h3 : truthyS f.ip_address = true) :
    statsMessage (update_cache c₁ f) = statsMessage (update_cache c₂ f) := by
  simp [update_cache, statsMessage, h1, h2, h3]

/-- Witness for `stats_fresh_truthy_no_retention`: an all-truthy read cycle
erases the difference between an empty and a fully-populated prior cache. -/
theorem stats_fresh_truthy_no_retention_witness :
    statsMessage (update_cache ⟨none, none, none, none, none, none⟩
        ⟨some 36, true, (1, 2, 3), 5, (1, 2, 3, 4), some "10.0.0.1"⟩)
      = statsMessage (update_cache ⟨some 1, some false, some (2, 2, 2), some 3,
          some (4, 4, 4, 4), some "x"⟩
        ⟨some 36, true, (1, 2, 3), 5, (1, 2, 3, 4), some "10.0.0.1"⟩) :=
  stats_fresh_truthy_no_retention _ _ _ (by decide) (by decide) (by decide)

/-! ### `HSK33Printer.paper_feed` — ESC J / ESC d byte construction
(printer_script.py)

```python
lines = command.get('space', 1)
lines = max(min(lines, 255), 1)
dots = lines * 24
commands = [
    b'\x1B\x4A' + bytes([dots]),   # ESC J n - Feed paper n dots
    b'\x1B\x64' + bytes([lines])   # ESC d n - Feed n lines
]
```
-/

/-- `bytes([v])`: `none` models the `ValueError` Python raises for a value
outside `range(0, 256)`. -/
def byteOf (v : Int) : Option Nat :=
  if 0 ≤ v ∧ v < 256 then some v.toNat else none

/-- The two escape-sequence commands `paper_feed` builds for a `'space'`
value, or `none` when one of the `bytes([...])` constructions raises. -/
def paper_feed_cmds (space : Int) : Option (List (List Nat)) :=
  let lines := max (min space 255) 1
  let dots := lines * 24
  match byteOf dots, byteOf lines with
  | some d, some l => some [[0x1B, 0x4A, d], [0x1B, 0x64, l]]
  | _, _ => none

/-- Claim C9 is wrong about the code: the clamp does bound `lines` to
`[1, 255]`, but the ESC J dot count `24 * lines` overflows a single byte as
soon as the clamped value reaches 11 — `bytes([264])` raises `ValueError` for
`'space': 11` — while `'space': 10` still succeeds (`240` dots). -/
theorem paper_feed_byte_overflow :
    paper_feed_cmds 11 = none
    ∧ max (min (11 : Int) 255) 1 * 24 = 264
    ∧ paper_feed_cmds 10 = some [[0x1B, 0x4A, 240], [0x1B, 0x64, 10]]
    ∧ max (min (1000 : Int) 255) 1 = 255 ∧ max (min (-5 : Int) 255) 1 = 1 := by
  refine ⟨rfl, rfl, rfl, rfl, rfl⟩

/-! ### `HSK33Printer.print_image` — raster conversion and header
(printer_script.py)

```python
width_bytes = img.width // 8
raster_data = bytearray()
for y in range(img.height):
    for x in range(0, img.width, 8):
        byte = 0
        for bit in range(8):
            if x + bit < img.width:
                if img.getpixel((x + bit, y)) == 0:  # Black pixel
                    byte |= (0x80 >> bit)
        raster_data.append(byte)
header = [
    b'\x1D\x76\x30\x00',
    bytes([width_bytes & 0xFF, width_bytes >> 8]),
    bytes([img.height & 0xFF, img.height >> 8]),
]
```
-/

/-- A 1-bit PIL image after
`img.point(lambda x: 0 if x < threshold else 255, '1')`: `pix x y` is
`img.getpixel((x, y))`, with `0` black. -/
structure Img where
  width : Nat
  height : Nat
  pix : Nat → Nat → Nat

/-- The inner `for bit in range(8)` loop: starting from `byte = 0`, OR in
`0x80 >> bit` for every black in-bounds pixel `(x + bit, y)`. -/
def rasterByte (img : Img) (x y : Nat) : Nat :=
  (List.range 8).foldl
    (fun b bit =>
      if x + bit < img.width ∧ img.pix (x + bit) y = 0 then b ||| (0x80 >>> bit) else b)
    0

/-- The full `raster_data` bytearray: `for y in range(h): for x in
range(0, w, 8)`; `range(0, w, 8)` visits `8*k` for `k < ⌈w/8⌉ = (w+7)/8`. -/
def rasterData (img : Img) : List Nat :=
  (List.range img.height).flatMap fun y =>
    (List.range ((img.width + 7) / 8)).map fun k => rasterByte img (8 * k) y

/-- `bytes([v & 0xFF, v >> 8])`, the two-byte little-endian field of the
raster header; `none` models the `ValueError` raised when `v >> 8` is not a
byte. -/
def u16leBytes (v : Nat) : Option (List Nat) :=
  if v >>> 8 < 256 then some [v &&& 0xFF, v >>> 8] else none

/-- The `GS v 0` raster header: command bytes, then `width_bytes = w // 8` and
the height, each as two little-endian bytes. -/
def rasterHeader (img : Img) : Option (List (List Nat)) :=
  match u16leBytes (img.width / 8), u16leBytes img.height with
  | some wb, some hb => some [[0x1D, 0x76, 0x30, 0x00], wb, hb]
  | _, _ => none

/-- The bit loop computes the MSB-first weighted sum of its eight condition
bits. -/
theorem foldl_bits_eq (c : Nat → Prop) [DecidablePred c] :
    (List.range 8).foldl (fun b bit => if c bit then b ||| (0x80 >>> bit) else b) 0
      = 128 * (decide (c 0)).toNat + 64 * (decide (c 1)).toNat
        + 32 * (decide (c 2)).toNat + 16 * (decide (c 3)).toNat
        + 8 * (decide (c 4)).toNat + 4 * (decide (c 5)).toNat
        + 2 * (decide (c 6)).toNat + (decide (c 7)).toNat := by
  rw [show List.range 8 = [0, 1, 2, 3, 4, 5, 6, 7] from rfl]
  simp only [List.foldl_cons, List.foldl_nil]
  by_cases h0 : c 0 <;> by_cases h1 : c 1 <;> by_cases h2 : c 2 <;> by_cases h3 : c 3 <;>
    by_cases h4 : c 4 <;> by_cases h5 : c 5 <;> by_cases h6 : c 6 <;> by_cases h7 : c 7 <;>
      simp [h0, h1, h2, h3, h4, h5, h6, h7]

/-- Masking an MSB-first weighted sum of eight bits with `0x80 >> b` is
nonzero exactly when bit `b` is set. -/
theorem mask_weighted_sum (t0 t1 t2 t3 t4 t5 t6 t7 : Bool) (b : Nat) (hb : b < 8) :
    ((128 * t0.toNat + 64 * t1.toNat + 32 * t2.toNat + 16 * t3.toNat
        + 8 * t4.toNat + 4 * t5.toNat + 2 * t6.toNat + t7.toNat)
      &&& (0x80 >>> b) ≠ 0)
      ↔ [t0, t1, t2, t3, t4, t5, t6, t7].getD b false = true := by
  interval_cases b <;> revert t0 t1 t2 t3 t4 t5 t6 t7 <;> decide

/-- Indexing into a `flatMap` over `range h` of equal-length (`m`) blocks. -/
theorem getElem_flatMap_blocks {α : Type} (m : Nat) :
    ∀ (h : Nat) (f : Nat → Nat → α) (y j : Nat), y < h → j < m →
      ((List.range h).flatMap fun i => (List.range m).map (f i))[y * m + j]?
        = some (f y j) := by
  intro h
  induction h with
  | zero =>
      intro f y j hy _
      exact absurd hy (Nat.not_lt_zero y)
  | succ h ih =>
      intro f y j hy hj
      rw [List.range_succ_eq_map, List.flatMap_cons, List.flatMap_map]
      cases y with
      | zero =>
          rw [Nat.zero_mul, Nat.zero_add,
            List.getElem?_append_left (by simpa using hj)]
          simp [List.getElem?_map, List.getElem?_range hj]
      | succ y =>
          have hlen : ((List.range m).map (f 0)).length = m := by simp
          rw [List.getElem?_append_right
            (by rw [hlen, Nat.succ_mul]; omega)]
          rw [hlen]
          have harith : (y + 1) * m + j - m = y * m + j := by
            rw [Nat.succ_mul]; omega
          rw [harith]
          exact ih (fun i => f (i + 1)) y j (by omega) hj

/-- Claim C2 (amended): for a 1-bit image whose width is a multiple of 8 the
raster conversion produces exactly `(w/8)*h` bytes in row-major order, bit
`0x80 >> b` of byte `y*(w/8) + x/8` set exactly when pixel `(x+b, y)` is
black; and — provided `w/8` and `h` each fit in 16 bits, as `print_image`
guarantees for the width (`w ≤ 576`) but not for the height — the header
encodes `w/8` and `h` as little-endian 16-bit values. -/
theorem raster_conversion_correct (img : Img) (h8 : img.width % 8 = 0) :
    (rasterData img).length = img.width / 8 * img.height
    ∧ (∀ x y b, x < img.width → y < img.height → x % 8 = 0 → b < 8 →
        (rasterData img)[y * (img.width / 8) + x / 8]? = some (rasterByte img x y)
        ∧ (rasterByte img x y &&& (0x80 >>> b) ≠ 0 ↔ img.pix (x + b) y = 0))
    ∧ (∀ v, v < 65536 →
        u16leBytes v = some [v % 256, v / 256]
        ∧ v % 256 < 256 ∧ v / 256 < 256 ∧ v % 256 + 256 * (v / 256) = v)
    ∧ (img.width / 8 < 65536 → img.height < 65536 →
        rasterHeader img = some [[0x1D, 0x76, 0x30, 0x00],
          [img.width / 8 % 256, img.width / 8 / 256],
          [img.height % 256, img.height / 256]]) := by
  have hu16 : ∀ v, v < 65536 →
      u16leBytes v = some [v % 256, v / 256]
      ∧ v % 256 < 256 ∧ v / 256 < 256 ∧ v % 256 + 256 * (v / 256) = v := by
    intro v hv
    have hshift : v >>> 8 = v / 256 := Nat.shiftRight_eq_div_pow v 8
    have hand : v &&& 0xFF = v % 256 := by
      have := Nat.and_pow_two_sub_one_eq_mod v 8
      norm_num at this
      omega
    refine ⟨?_, by omega, by omega, by omega⟩
    rw [u16leBytes, hshift, hand, if_pos (by omega)]
  have hm : (img.width + 7) / 8 = img.width / 8 := by omega
  refine ⟨?_, ?_, hu16, ?_⟩
  · rw [rasterData, hm]
    rw [List.length_flatMap]
    have hmap : (List.map (List.length ∘ fun y =>
        List.map (fun k => rasterByte img (8 * k) y) (List.range (img.width / 8)))
        (List.range img.height)) = List.replicate img.height (img.width / 8) := by
      rw [List.eq_replicate_iff]
      refine ⟨by simp, ?_⟩
      intro b hb
      rcases List.mem_map.mp hb with ⟨y, _, rfl⟩
      simp [Function.comp]
    rw [hmap, List.sum_replicate, smul_eq_mul, Nat.mul_comm]
  · intro x y b hx hy hx8 hb
    constructor
    · rw [rasterData, hm]
      have hj : x / 8 < img.width / 8 := by omega
      have h := getElem_flatMap_blocks (img.width / 8) img.height
        (fun y k => rasterByte img (8 * k) y) y (x / 8) hy hj
      have hxx : 8 * (x / 8) = x := by omega
      simp only [] at h
      rw [hxx] at h
      exact h
    · have hbyte := foldl_bits_eq
        (fun bit => x + bit < img.width ∧ img.pix (x + bit) y = 0)
      simp only [] at hbyte
      have hbb : rasterByte img x y
          = 128 * (decide (x + 0 < img.width ∧ img.pix (x + 0) y = 0)).toNat
            + 64 * (decide (x + 1 < img.width ∧ img.pix (x + 1) y = 0)).toNat
            + 32 * (decide (x + 2 < img.width ∧ img.pix (x + 2) y = 0)).toNat
            + 16 * (decide (x + 3 < img.width ∧ img.pix (x + 3) y = 0)).toNat
            + 8 * (decide (x + 4 < img.width ∧ img.pix (x + 4) y = 0)).toNat
            + 4 * (decide (x + 5 < img.width ∧ img.pix (x + 5) y = 0)).toNat
            + 2 * (decide (x + 6 < img.width ∧ img.pix (x + 6) y = 0)).toNat
            + (decide (x + 7 < img.width ∧ img.pix (x + 7) y = 0)).toNat := by
        rw [rasterByte]
        exact hbyte
      rw [hbb, mask_weighted_sum _ _ _ _ _ _ _ _ b hb]
      have hlt : ∀ k, k < 8 → x + k < img.width := by omega
      interval_cases b <;>
        simp only [List.getD_cons_zero, List.getD_cons_succ, decide_eq_true_eq] <;>
          exact ⟨fun h => h.2, fun h => ⟨hlt _ (by omega), h⟩⟩
  · intro hw hh
    rw [rasterHeader, (hu16 _ hw).1, (hu16 _ hh).1]

/-- Witness for `raster_conversion_correct`: an all-black 8×1 image yields one
raster byte whose bit `0x80 >> 0` is set. -/
theorem raster_conversion_correct_witness :
    (rasterData ⟨8, 1, fun _ _ => 0⟩).length = 8 / 8 * 1
    ∧ (rasterByte ⟨8, 1, fun _ _ => 0⟩ 0 0 &&& (0x80 >>> 0) ≠ 0 ↔ (0 : Nat) = 0)
    ∧ rasterHeader ⟨8, 1, fun _ _ => 0⟩ = some [[0x1D, 0x76, 0x30, 0x00], [1, 0], [1, 0]] :=
  ⟨(raster_conversion_correct ⟨8, 1, fun _ _ => 0⟩ rfl).1,
   ((raster_conversion_correct ⟨8, 1, fun _ _ => 0⟩ rfl).2.1 0 0 0 (by decide) (by decide)
     rfl (by decide)).2,
   (raster_conversion_correct ⟨8, 1, fun _ _ => 0⟩ rfl).2.2.2 (by decide) (by decide)⟩

/-- Counterexample to claim C2 as universally stated: for an image 65536
pixels tall, `bytes([img.height & 0xFF, img.height >> 8])` raises `ValueError`
(`img.height >> 8` is 256), so the header does not encode the height as a
little-endian 16-bit value. -/
theorem raster_header_tall_image_raises :
    u16leBytes 65536 = none
    ∧ rasterHeader ⟨8, 65536, fun _ _ => 0⟩ = none := ⟨rfl, rfl⟩

/-! ### `print_image` — width clamp and multiple-of-8 padding
(printer_script.py)

```python
max_width = 576
if img.width > max_width:
    ratio = max_width / img.width
    new_height = int(img.height * ratio)
    img = img.resize((max_width, new_height), Image.Resampling.LANCZOS)

width = (img.width + 7) & ~7
if width != img.width:
    new_img = Image.new('1', (width, img.height), 1)   # white = 1
    new_img.paste(img, (0, 0))
    img = new_img
```
-/

/-- `(w + 7) & ~7`: in Python `~7 = -8`, and AND with `-8` clears the three
low bits of `w + 7`, rounding `w` up to the next multiple of 8. -/
def roundUp8 (w : Nat) : Nat := (w + 7) - (w + 7) % 8

/-- The down-scaling step: an image wider than 576 dots is resized to width
576 with height `int(img.height * 576 / img.width)` (the LANCZOS-resampled
pixel contents are abstract, float rounding of the height aside). -/
def resizeIfWide (img : Img) (resampled : Nat → Nat → Nat) : Img :=
  if img.width > 576 then
    ⟨576, img.height * 576 / img.width, resampled⟩
  else img

/-- The padding step: when the width is not already a multiple of 8, a new
white (`1`) image of the rounded-up width receives the original at `(0, 0)`. -/
def ensureMult8 (img : Img) : Img :=
  if roundUp8 img.width ≠ img.width then
    ⟨roundUp8 img.width, img.height, fun x y => if x < img.width then img.pix x y else 1⟩
  else img

/-- The image whose raster bytes `print_image` produces and transmits. -/
def preparedImage (img : Img) (resampled : Nat → Nat → Nat) : Img :=
  ensureMult8 (resizeIfWide img resampled)

/-- Claim C10: every image whose raster bytes are sent has width at most 576
and a multiple of 8: an image wider than 576 is first down-scaled to width
exactly 576, a width not a multiple of 8 is right-padded with white (`1`)
pixels up to the next multiple of 8, and all padding pixels are white. -/
theorem print_image_width_invariant (img : Img) (resampled : Nat → Nat → Nat) :
    (preparedImage img resampled).width ≤ 576
    ∧ (preparedImage img resampled).width % 8 = 0
    ∧ (img.width > 576 → (resizeIfWide img resampled).width = 576)
    ∧ (img.width ≤ 576 →
        (preparedImage img resampled).width = img.width + (8 - img.width % 8) % 8)
    ∧ (∀ x y, (resizeIfWide img resampled).width ≤ x →
        x < (preparedImage img resampled).width →
        (preparedImage img resampled).pix x y = 1) := by
  rcases Nat.lt_or_ge 576 img.width with hw | hw
  · have h1 : resizeIfWide img resampled = ⟨576, img.height * 576 / img.width, resampled⟩ := by
      rw [resizeIfWide, if_pos hw]
    have h2 : preparedImage img resampled = ⟨576, img.height * 576 / img.width, resampled⟩ := by
      rw [preparedImage, h1, ensureMult8]
      norm_num [roundUp8]
    rw [h1, h2]
    refine ⟨by norm_num, by norm_num, fun _ => rfl, fun h => absurd h (by omega), ?_⟩
    intro x y hx hlt
    exact absurd hlt (by omega)
  · have h1 : resizeIfWide img resampled = img := by
      rw [resizeIfWide, if_neg (by omega)]
    rw [preparedImage, h1]
    by_cases hpad : roundUp8 img.width ≠ img.width
    · have h2 : ensureMult8 img
          = ⟨roundUp8 img.width, img.height,
              fun x y => if x < img.width then img.pix x y else 1⟩ := by
        rw [ensureMult8, if_pos hpad]
      rw [h2]
      refine ⟨?_, ?_, fun h => absurd h (by omega), fun _ => ?_, ?_⟩
      · show roundUp8 img.width ≤ 576
        rw [roundUp8]; omega
      · show roundUp8 img.width % 8 = 0
        rw [roundUp8]; omega
      · show roundUp8 img.width = img.width + (8 - img.width % 8) % 8
        rw [roundUp8]; omega
      · intro x y hx hlt
        show (if x < img.width then img.pix x y else 1) = 1
        rw [if_neg (by omega)]
    · have heq : roundUp8 img.width = img.width := not_ne_iff.mp hpad
      have h2 : ensureMult8 img = img := by
        rw [ensureMult8, if_neg hpad]
      rw [h2]
      have h8 : img.width % 8 = 0 := by rw [roundUp8] at heq; omega
      refine ⟨hw, h8, fun h => absurd h (by omega), fun _ => by omega, ?_⟩
      intro x y hx hlt
      exact absurd hlt (by omega)

/-- Witness for `print_image_width_invariant`: a 100-pixel-wide image is
padded to width 104 = 100 + 4, and padding pixel `(101, 0)` is white. -/
theorem print_image_width_invariant_witness :
    (preparedImage ⟨100, 10, fun _ _ => 0⟩ (fun _ _ => 0)).width
        = 100 + (8 - 100 % 8) % 8
    ∧ (preparedImage ⟨100, 10, fun _ _ => 0⟩ (fun _ _ => 0)).pix 101 0 = 1 :=
  ⟨(print_image_width_invariant ⟨100, 10, fun _ _ => 0⟩ (fun _ _ => 0)).2.2.2.1 (by decide),
   (print_image_width_invariant ⟨100, 10, fun _ _ => 0⟩ (fun _ _ => 0)).2.2.2.2 101 0
     (by decide) (by decide)⟩

end PlanktonGate
